import Mathlib

set_option autoImplicit false

namespace WebIntelAudit

/-! Shallow embedding of the WebIntelAudit scan-session core:
the record store (`server/storage.ts`, class `MemStorage`), the
orchestrator's worker-output handlers and the WebSocket broadcaster
(the routes module, `registerRoutes`).  JavaScript `Map`s are modelled
as association lists in insertion order (a `Map.set` on an existing key
overwrites in place, on a fresh key appends); JS `Set`s are duplicate-free
lists in insertion order; timestamps are naturals; the worker's JSON
output lines arrive already split and parse-classified, since the JSON
decoding itself is at the adapter boundary. -/

/-- Log levels of `LogEntry.level` in `shared/schema.ts`. -/
inductive LogLevel where
  | info
  | debug
  | warn
  | error
  | processing
deriving DecidableEq, Repr

/-- `LogEntry` from `shared/schema.ts`. -/
structure LogEntry where
  timestamp : String
  level : LogLevel
  message : String
deriving DecidableEq, Repr

/-- `ScanSession` from `shared/schema.ts` (`scan_sessions` table row).
`status` is a free string in the schema ("pending", "running",
"completed", "failed" by convention); nullable columns are `Option`;
the opaque JSON payload columns are kept as opaque strings. -/
structure ScanSession where
  id : Nat
  url : String
  status : String
  progress : Int
  securityScore : Option Int
  loadTime : Option String
  domElements : Option Int
  jsErrors : Option Int
  vulnerabilities : Option String
  performanceMetrics : Option String
  nlpInsights : Option String
  logs : List LogEntry
  createdAt : Option Nat
  completedAt : Option Nat
deriving DecidableEq, Repr

/-- `Partial<ScanSession>` as used by `updateScanSession`: each field is
present (`some`) or absent (`none`); for nullable columns the inner
`Option` is the column's own nullability. -/
structure SessionUpdates where
  id : Option Nat := none
  url : Option String := none
  status : Option String := none
  progress : Option Int := none
  securityScore : Option (Option Int) := none
  loadTime : Option (Option String) := none
  domElements : Option (Option Int) := none
  jsErrors : Option (Option Int) := none
  vulnerabilities : Option (Option String) := none
  performanceMetrics : Option (Option String) := none
  nlpInsights : Option (Option String) := none
  logs : Option (List LogEntry) := none
  createdAt : Option (Option Nat) := none
  completedAt : Option (Option Nat) := none
deriving DecidableEq, Repr

/-! Association-list model of a JS `Map` keyed by numbers. -/

/-- `Map.get`: first entry with the given key. -/
def alistFind {α : Type} (l : List (Nat × α)) (k : Nat) : Option α :=
  (l.find? (fun p => p.1 == k)).map (fun p => p.2)

/-- `Map.set`: overwrite in place when the key is present, append when
absent (JS `Map` keys are unique and keep insertion order on overwrite). -/
def alistSet {α : Type} : List (Nat × α) → Nat → α → List (Nat × α)
  | [], k, v => [(k, v)]
  | p :: l, k, v => if p.1 == k then (k, v) :: l else p :: alistSet l k v

/-- The in-memory record store: `MemStorage.scanSessions`. -/
abbrev ScanStore := List (Nat × ScanSession)

/-- `MemStorage.getScanSession`. -/
def getSession (st : ScanStore) (id : Nat) : Option ScanSession :=
  alistFind st id

/-- The record built by `MemStorage.createScanSession` for a fresh id
issued by the store's counter. -/
def initSession (id : Nat) (url : String) (now : Nat) : ScanSession :=
  { id := id
    url := url
    status := "pending"
    progress := 0
    securityScore := none
    loadTime := none
    domElements := none
    jsErrors := none
    vulnerabilities := none
    performanceMetrics := none
    nlpInsights := none
    logs := []
    createdAt := some now
    completedAt := none }

/-- `MemStorage.createScanSession`: insert the fresh record under its id. -/
def createScanSession (st : ScanStore) (id : Nat) (url : String) (now : Nat) :
    ScanStore × ScanSession :=
  (alistSet st id (initSession id url now), initSession id url now)

/-- The TS object-spread merge `\x7b ...session, ...updates \x7d`:
fields present in the update overwrite, all other fields keep the
record's previous value. -/
def applySessionUpdates (s : ScanSession) (u : SessionUpdates) : ScanSession :=
  { id := u.id.getD s.id
    url := u.url.getD s.url
    status := u.status.getD s.status
    progress := u.progress.getD s.progress
    securityScore := u.securityScore.getD s.securityScore
    loadTime := u.loadTime.getD s.loadTime
    domElements := u.domElements.getD s.domElements
    jsErrors := u.jsErrors.getD s.jsErrors
    vulnerabilities := u.vulnerabilities.getD s.vulnerabilities
    performanceMetrics := u.performanceMetrics.getD s.performanceMetrics
    nlpInsights := u.nlpInsights.getD s.nlpInsights
    logs := u.logs.getD s.logs
    createdAt := u.createdAt.getD s.createdAt
    completedAt := u.completedAt.getD s.completedAt }

/-- `MemStorage.updateScanSession`: unknown id returns `undefined` and
leaves the map untouched; otherwise merge and store the merged record. -/
def updateScanSession (st : ScanStore) (id : Nat) (u : SessionUpdates) :
    ScanStore × Option ScanSession :=
  match getSession st id with
  | none => (st, none)
  | some s => (alistSet st id (applySessionUpdates s u), some (applySessionUpdates s u))

/-- `MemStorage.addLogEntry`: unknown id is a silent no-op; otherwise the
entry is appended to the record's log sequence. -/
def addLogEntry (st : ScanStore) (id : Nat) (e : LogEntry) : ScanStore :=
  match getSession st id with
  | none => st
  | some s => alistSet st id { s with logs := s.logs ++ [e] }

/-- Sort key of `getAllScanSessions`: `createdAt` as epoch time, a null
`createdAt` counting as time 0. -/
def keyTime (s : ScanSession) : Nat :=
  s.createdAt.getD 0

/-- `MemStorage.getAllScanSessions`: all stored records, sorted by the
comparator `(a, b) => bTime - aTime`, i.e. newest first. -/
def getAllScanSessions (st : ScanStore) : List ScanSession :=
  (st.map (fun p => p.2)).mergeSort (fun a b => decide (keyTime b ≤ keyTime a))

/-! Generic facts about the `Map` model. -/

theorem alistFind_nil {α : Type} (k : Nat) : alistFind ([] : List (Nat × α)) k = none := rfl

theorem alistFind_cons {α : Type} (p : Nat × α) (l : List (Nat × α)) (k : Nat) :
    alistFind (p :: l) k = if p.1 == k then some p.2 else alistFind l k := by
  by_cases h : p.1 == k <;> simp [alistFind, List.find?_cons, h]

theorem alistFind_isSome_iff_any {α : Type} (l : List (Nat × α)) (k : Nat) :
    (alistFind l k).isSome = l.any (fun p => p.1 == k) := by
  induction l with
  | nil => rfl
  | cons p l ih =>
      by_cases h : p.1 == k <;> simp [alistFind_cons, h, List.any_cons, ih]

theorem alistFind_alistSet_self {α : Type} (l : List (Nat × α)) (k : Nat) (v : α) :
    alistFind (alistSet l k v) k = some v := by
  induction l with
  | nil => simp [alistSet, alistFind_cons]
  | cons p l ih =>
      by_cases h : p.1 == k
      · simp [alistSet, h, alistFind_cons]
      · simp [alistSet, h, alistFind_cons, ih]

theorem alistFind_alistSet_ne {α : Type} (l : List (Nat × α)) (k : Nat) (v : α)
    (j : Nat) (hj : j ≠ k) : alistFind (alistSet l k v) j = alistFind l j := by
  induction l with
  | nil =>
      have hkj : (k == j) = false := by simp [Ne.symm hj]
      simp [alistSet, alistFind_cons, hkj]
  | cons p l ih =>
      by_cases h : p.1 == k
      · have hk : p.1 = k := by simpa using h
        have hpj : (p.1 == j) = false := by simp [hk, Ne.symm hj]
        have hkj : (k == j) = false := by simp [Ne.symm hj]
        simp [alistSet, h, alistFind_cons, hpj, hkj, hk]
      · by_cases hpj : p.1 == j <;> simp [alistSet, h, alistFind_cons, hpj, ih]

theorem alistSet_alistSet_same {α : Type} (l : List (Nat × α)) (k : Nat) (v w : α) :
    alistSet (alistSet l k v) k w = alistSet l k w := by
  induction l with
  | nil => simp [alistSet]
  | cons p l ih =>
      by_cases h : p.1 == k
      · simp [alistSet, h]
      · simp [alistSet, h, ih]

/-! The orchestrator (the scan-start route's worker-output handlers).
Each handler body is embedded as a trace of primitive effects in the
exact order the code performs them, so that the persist/publish ordering
is part of the embedding and not an after-the-fact assertion. -/

/-- A parsed worker stdout line: the tagged `\x7btype, data\x7d` union
decoded by `JSON.parse` in the stdout handler.  `other` is any type tag
without a branch in the handler. -/
inductive UpdateMsg where
  | log (entry : LogEntry)
  | progress (value : Int) (status : Option String)
  | result (data : SessionUpdates)
  | browserAction (payload : String)
  | screenshot (payload : String)
  | other (tag : String) (payload : String)
deriving DecidableEq, Repr

/-- A message sent over a WebSocket connection (`broadcastUpdate`
payloads plus the `subscribed` confirmation). -/
inductive WsMsg where
  | log (entry : LogEntry)
  | progress (value : Int) (status : Option String)
  | result (data : SessionUpdates)
  | status (value : String)
  | browserAction (payload : String)
  | screenshot (payload : String)
  | subscribed (sessionId : Nat)
deriving DecidableEq, Repr

/-- A primitive effect of an orchestrator handler: a record-store
mutation or a hand-off of one event to the broadcaster. -/
inductive EffectAct where
  | persistLog (sessionId : Nat) (entry : LogEntry)
  | persistUpdate (sessionId : Nat) (u : SessionUpdates)
  | publish (sessionId : Nat) (msg : WsMsg)
deriving DecidableEq, Repr

/-- The JS expression `update.data.status || 'running'` of the progress
branch: an absent or falsy (empty) status string defaults to "running". -/
def statusOrRunning (s : Option String) : String :=
  match s with
  | none => "running"
  | some v => if v = "" then "running" else v

/-- The partial update written by the progress branch: progress verbatim
from the event, status from the event or "running". -/
def progressUpdates (value : Int) (status : Option String) : SessionUpdates :=
  { progress := some value, status := some (statusOrRunning status) }

/-- The partial update written by the result branch: the spread of the
event's payload, then status forced to "completed" and `completedAt`
stamped (the two forced fields overwrite anything in the payload). -/
def resultUpdates (data : SessionUpdates) (now : Nat) : SessionUpdates :=
  { data with status := some "completed", completedAt := some (some now) }

/-- The partial update written by the close handler on a non-zero exit:
status forced to "failed" and `completedAt` stamped. -/
def failedUpdates (now : Nat) : SessionUpdates :=
  { status := some "failed", completedAt := some (some now) }

/-- Effect trace of the stdout handler's body for one parsed line, in
source order: each recognized branch persists first (when it persists at
all) and then hands the same event to `broadcastUpdate`; `browserAction`
and `screenshot` only broadcast; an unrecognized tag does nothing. -/
def updateTrace (sid : Nat) (now : Nat) : UpdateMsg → List EffectAct
  | .log e => [.persistLog sid e, .publish sid (.log e)]
  | .progress v s => [.persistUpdate sid (progressUpdates v s), .publish sid (.progress v s)]
  | .result d => [.persistUpdate sid (resultUpdates d now), .publish sid (.result d)]
  | .browserAction p => [.publish sid (.browserAction p)]
  | .screenshot p => [.publish sid (.screenshot p)]
  | .other _ _ => []

/-- Effect trace of the process close handler: only a non-zero (or null,
modelled as `none`) exit code persists the failure and broadcasts a
status event; exit code 0 does nothing at all. -/
def closeTrace (sid : Nat) (now : Nat) (code : Option Int) : List EffectAct :=
  if code ≠ some 0 then
    [.persistUpdate sid (failedUpdates now), .publish sid (.status "failed")]
  else []

/-- Effect trace of the stderr handler: the chunk is wrapped as an
ERROR-level log entry, persisted, then broadcast. -/
def stderrTrace (sid : Nat) (ts : String) (chunk : String) : List EffectAct :=
  [.persistLog sid ⟨ts, .error, chunk.trim⟩, .publish sid (.log ⟨ts, .error, chunk.trim⟩)]

/-- Apply one persistence effect to the record store (publishing does
not touch the store). -/
def applyAct (st : ScanStore) : EffectAct → ScanStore
  | .persistLog sid e => addLogEntry st sid e
  | .persistUpdate sid u => (updateScanSession st sid u).1
  | .publish _ _ => st

/-- Run a trace over the store, recording for every published event the
store state at the instant of the hand-off to the broadcaster. -/
def runTrace : ScanStore → List EffectAct → ScanStore × List (ScanStore × Nat × WsMsg)
  | st, [] => (st, [])
  | st, EffectAct.persistLog sid e :: rest => runTrace (addLogEntry st sid e) rest
  | st, EffectAct.persistUpdate sid u :: rest => runTrace ((updateScanSession st sid u).1) rest
  | st, EffectAct.publish sid m :: rest =>
      let r := runTrace st rest
      (r.1, (st, sid, m) :: r.2)

/-- Run a trace, keeping the final store and the broadcast sequence. -/
def execTrace (st : ScanStore) (acts : List EffectAct) : ScanStore × List (Nat × WsMsg) :=
  ((runTrace st acts).1, (runTrace st acts).2.map (fun p => p.2))

/-- The stdout handler's processing of one parsed line. -/
def handleUpdate (sid : Nat) (now : Nat) (st : ScanStore) (u : UpdateMsg) :
    ScanStore × List (Nat × WsMsg) :=
  execTrace st (updateTrace sid now u)

/-- The close handler (`OnWorkerExit`). -/
def handleWorkerClose (sid : Nat) (now : Nat) (st : ScanStore) (code : Option Int) :
    ScanStore × List (Nat × WsMsg) :=
  execTrace st (closeTrace sid now code)

/-- One stdout line after `split('\n').filter(Boolean)` and the attempt
to `JSON.parse` it: either a decoded update or the raw text of a line
that failed to parse. -/
abbrev ParsedLine := Except String UpdateMsg

/-- The whole stdout `data` handler for one chunk: the `for` loop over
the chunk's lines sits inside a single `try`, so the first line that
fails to parse throws to the `catch` (which only logs to the server
console) and the remaining lines of the chunk are never reached. -/
def handleStdoutBatch (sid : Nat) (now : Nat) (st : ScanStore) :
    List ParsedLine → ScanStore × List (Nat × WsMsg)
  | [] => (st, [])
  | Except.error _ :: _ => (st, [])
  | Except.ok u :: rest =>
      let r := handleUpdate sid now st u
      let r2 := handleStdoutBatch sid now r.1 rest
      (r2.1, r.2 ++ r2.2)

/-! The event broadcaster (`sessionConnections`, the WebSocket message
handler and `broadcastUpdate`). -/

/-- An observer connection, identified abstractly. -/
abbrev Conn := Nat

/-- The broadcaster registry `sessionConnections : Map<number, Set<WebSocket>>`. -/
abbrev Registry := List (Nat × List Conn)

/-- `Set.add`: append only when absent. -/
def setAdd (conns : List Conn) (c : Conn) : List Conn :=
  if c ∈ conns then conns else conns ++ [c]

/-- The subscribe branch of the WebSocket message handler: ensure an
entry for the session exists (a fresh empty set when absent) and add
the connection to it. -/
def subscribe (r : Registry) (sid : Nat) (c : Conn) : Registry :=
  match alistFind r sid with
  | none => alistSet r sid (setAdd [] c)
  | some conns => alistSet r sid (setAdd conns c)

/-- The full subscribe handling, including the `subscribed`
confirmation sent back to the subscribing connection. -/
def handleSubscribe (r : Registry) (sid : Nat) (c : Conn) :
    Registry × List (Conn × WsMsg) :=
  (subscribe r sid c, [(c, WsMsg.subscribed sid)])

/-- `broadcastUpdate`: walk the session's connection set; a connection
whose readyState is OPEN is sent the message, any other connection is
deleted from the set on the spot.  A missing or empty set means nothing
is sent and the registry is untouched. -/
def broadcastUpdate (openConn : Conn → Bool) (r : Registry) (sid : Nat) (m : WsMsg) :
    Registry × List (Conn × WsMsg) :=
  match alistFind r sid with
  | none => (r, [])
  | some conns =>
      if conns.length > 0 then
        (alistSet r sid (conns.filter openConn),
         (conns.filter openConn).map (fun c => (c, m)))
      else (r, [])

/-- The connection close handler: remove the connection from every
session's set. -/
def handleDisconnect (r : Registry) (c : Conn) : Registry :=
  r.map (fun p => (p.1, p.2.filter (fun x => x ≠ c)))

/-- Well-formedness the JS `Set` guarantees by construction: no
connection appears twice in any session's set. -/
def RegistryWf (r : Registry) : Prop :=
  ∀ p ∈ r, List.Nodup p.2

/-! Derived store facts. -/

theorem getSession_addLogEntry_self (st : ScanStore) (sid : Nat) (e : LogEntry)
    (s : ScanSession) (h : getSession st sid = some s) :
    getSession (addLogEntry st sid e) sid = some { s with logs := s.logs ++ [e] } := by
  unfold addLogEntry
  rw [h]
  exact alistFind_alistSet_self st sid _

theorem getSession_update_self (st : ScanStore) (sid : Nat) (u : SessionUpdates)
    (s : ScanSession) (h : getSession st sid = some s) :
    getSession ((updateScanSession st sid u).1) sid = some (applySessionUpdates s u) := by
  unfold updateScanSession
  rw [h]
  exact alistFind_alistSet_self st sid _

theorem getSession_update_ne (st : ScanStore) (sid : Nat) (u : SessionUpdates)
    (j : Nat) (hj : j ≠ sid) :
    getSession ((updateScanSession st sid u).1) j = getSession st j := by
  cases h : getSession st sid with
  | none => simp [updateScanSession, h]
  | some s =>
      simp only [updateScanSession, h]
      exact alistFind_alistSet_ne st sid _ j hj

/-! Concrete fixtures used by witnesses and counterexamples. -/

/-- A sample log entry. -/
def demoEntry : LogEntry := ⟨"2025-01-01T00:00:00Z", LogLevel.info, "step one"⟩

/-- A freshly created session record under id 1. -/
def freshStore : ScanStore := [(1, initSession 1 "https://example.com" 3)]

/-- A record that has reached the terminal status "completed". -/
def completedSession : ScanSession :=
  { initSession 1 "https://example.com" 3 with status := "completed", progress := 100 }

/-- A store holding only the completed record. -/
def completedStore : ScanStore := [(1, completedSession)]

/-- A record still running at 40 percent. -/
def runningSession : ScanSession :=
  { initSession 2 "https://example.com" 3 with status := "running", progress := 40 }

/-- A store holding only the running record. -/
def runningStore : ScanStore := [(2, runningSession)]

/-- Store states along the progress counterexample run: progress 50,
then a result, then progress 10. -/
def stepOneStore : ScanStore := (handleUpdate 1 3 freshStore (UpdateMsg.progress 50 none)).1

/-- Second step of the run: a result event completes the job. -/
def stepTwoStore : ScanStore := (handleUpdate 1 4 stepOneStore (UpdateMsg.result {})).1

/-- Third step of the run: a late progress event after completion. -/
def stepThreeStore : ScanStore := (handleUpdate 1 5 stepTwoStore (UpdateMsg.progress 10 none)).1

/-- A sample partial update touching status and progress only. -/
def demoUpdates : SessionUpdates := { status := some "running", progress := some 10 }

/-- What the store must already show at the instant an event is handed
to the broadcaster, for an observer reading right after receiving it:
a Log event's entry is the last log line, a Progress event's value and
effective status are in place, a Result event has completed the job. -/
def publishReflects (sid : Nat) (now : Nat) (u : UpdateMsg) (obs : ScanStore) : Prop :=
  match u with
  | .log e => ∃ s, getSession obs sid = some s ∧ s.logs.getLast? = some e
  | .progress v stt =>
      ∃ s, getSession obs sid = some s ∧ s.progress = v ∧ s.status = statusOrRunning stt
  | .result _ =>
      ∃ s, getSession obs sid = some s ∧ s.status = "completed" ∧ s.completedAt = some now
  | _ => True

/-! Claim theorems. -/

/-- Claim C1 (persist-then-publish): for every job present in the store
and every event handled by the stdout handler, at the instant the event
is handed to the broadcaster the store already equals the fully
persisted state for that event, and in particular reflects everything
the event implies (a Log event's entry is the last log line, a Progress
event's value and status are in place, a Result event has completed the
job), so an observer who queries right after receiving the event never
sees state older than the event. -/
theorem persist_then_publish (st : ScanStore) (sid : Nat) (now : Nat) (u : UpdateMsg)
    (s : ScanSession) (h : getSession st sid = some s) :
    ∀ snap ∈ (runTrace st (updateTrace sid now u)).2,
      snap.1 = (runTrace st (updateTrace sid now u)).1 ∧
      publishReflects sid now u snap.1 := by
  cases u with
  | log e =>
      intro snap hsnap
      simp only [updateTrace, runTrace, List.mem_singleton] at hsnap
      subst hsnap
      refine ⟨by simp [runTrace, updateTrace], ?_⟩
      exact ⟨_, getSession_addLogEntry_self st sid e s h, by simp⟩
  | progress v stt =>
      intro snap hsnap
      simp only [updateTrace, runTrace, List.mem_singleton] at hsnap
      subst hsnap
      refine ⟨by simp [runTrace, updateTrace], ?_⟩
      exact ⟨_, getSession_update_self st sid (progressUpdates v stt) s h,
        by simp [applySessionUpdates, progressUpdates],
        by simp [applySessionUpdates, progressUpdates]⟩
  | result d =>
      intro snap hsnap
      simp only [updateTrace, runTrace, List.mem_singleton] at hsnap
      subst hsnap
      refine ⟨by simp [runTrace, updateTrace], ?_⟩
      exact ⟨_, getSession_update_self st sid (resultUpdates d now) s h,
        by simp [applySessionUpdates, resultUpdates],
        by simp [applySessionUpdates, resultUpdates]⟩
  | browserAction p =>
      intro snap hsnap
      simp only [updateTrace, runTrace, List.mem_singleton] at hsnap
      subst hsnap
      exact ⟨by simp [runTrace, updateTrace], trivial⟩
  | screenshot p =>
      intro snap hsnap
      simp only [updateTrace, runTrace, List.mem_singleton] at hsnap
      subst hsnap
      exact ⟨by simp [runTrace, updateTrace], trivial⟩
  | other tag p =>
      intro snap hsnap
      simp [updateTrace, runTrace] at hsnap

/-- Witness for C1: a Log event on the fresh store, instantiated at the
one snapshot the trace publishes. -/
theorem persist_then_publish_witness :
    publishReflects 1 7 (UpdateMsg.log demoEntry) (addLogEntry freshStore 1 demoEntry) :=
  (persist_then_publish freshStore 1 7 (UpdateMsg.log demoEntry)
    (initSession 1 "https://example.com" 3) (by decide)
    (addLogEntry freshStore 1 demoEntry, 1, WsMsg.log demoEntry) (by decide)).2

/-- Claim C4, counterexample: a batch whose first line is malformed
followed by a perfectly valid Log line leaves the store byte-for-byte
unchanged (in particular no ERROR-level entry is appended — the logs
stay empty) and broadcasts nothing, so the malformed line yields zero
log entries and the later valid line of the same batch is dropped. -/
theorem malformed_line_cex :
    handleStdoutBatch 1 7 freshStore
        [Except.error "this is not JSON", Except.ok (UpdateMsg.log demoEntry)]
      = (freshStore, []) ∧
    (getSession freshStore 1).map ScanSession.logs = some [] := by
  decide

/-- Claim C4 as amended: a malformed line never terminates the read
loop or the orchestrator (the parse error is caught), but it yields no
log entry at all and aborts the rest of its own batch: processing a
batch of valid lines followed by a malformed line and anything after it
does exactly what processing the valid prefix alone does, and later
batches are processed normally from that state. -/
theorem malformed_line_aborts_batch (sid now : Nat) (st : ScanStore)
    (pre : List UpdateMsg) (bad : String) (rest : List ParsedLine) :
    handleStdoutBatch sid now st (pre.map Except.ok ++ Except.error bad :: rest)
      = handleStdoutBatch sid now st (pre.map Except.ok) := by
  induction pre generalizing st with
  | nil => simp [handleStdoutBatch]
  | cons u pre ih => simp [handleStdoutBatch, ih]

/-- Claim C8 (job-list ordering): the job-list query returns a
permutation of the records in the store (each stored record exactly
once) sorted newest-first by creation time, a null creation time
sorting as time 0. -/
theorem job_list_newest_first (st : ScanStore) :
    (getAllScanSessions st).Perm (st.map (fun p => p.2)) ∧
    List.Pairwise (fun a b => keyTime b ≤ keyTime a) (getAllScanSessions st) := by
  constructor
  · exact List.mergeSort_perm _ _
  · have hs := @List.sorted_mergeSort ScanSession
      (fun a b : ScanSession => decide (keyTime b ≤ keyTime a))
      (fun a b c hab hbc => by
        simp only [decide_eq_true_eq] at hab hbc ⊢
        exact le_trans hbc hab)
      (fun a b => by
        simp only [Bool.or_eq_true, decide_eq_true_eq]
        exact Nat.le_total (keyTime b) (keyTime a))
      (st.map (fun p => p.2))
    refine List.Pairwise.imp ?_ hs
    intro a b hab
    simpa using hab

/-- Claim C10 (unknown-id atomicity): updating or appending a log entry
under an id the store does not hold returns `undefined` respectively
returns silently, and leaves the store completely unchanged. -/
theorem unknown_id_noop (st : ScanStore) (id : Nat) (u : SessionUpdates) (e : LogEntry)
    (h : getSession st id = none) :
    updateScanSession st id u = (st, none) ∧ addLogEntry st id e = st := by
  constructor
  · simp [updateScanSession, h]
  · simp [addLogEntry, h]

/-- Witness for C10 at the empty store. -/
theorem unknown_id_noop_witness :
    updateScanSession ([] : ScanStore) 5 {} = (([] : ScanStore), none) ∧
    addLogEntry ([] : ScanStore) 5 demoEntry = ([] : ScanStore) :=
  unknown_id_noop [] 5 {} demoEntry (by decide)

/-- Claim C2, counterexample: a record already observed with status
"completed" is observed with status "failed" after the worker-exit
notification with exit code 1, because the close handler overwrites the
status without checking whether the job is already terminal. -/
theorem terminal_not_immutable_cex :
    (getSession completedStore 1).map ScanSession.status = some "completed" ∧
    (getSession ((handleWorkerClose 1 9 completedStore (some 1)).1) 1).map ScanSession.status
      = some "failed" := by
  decide

/-- Claim C2 as amended: a handled Log event never changes the status
(so that much of terminal immutability holds), but terminal states are
not immutable: a handled Progress event always overwrites the status
with the event's status or "running", and a worker-exit notification
with a non-zero (or null) exit code always overwrites the status with
"failed", even when the job was already "completed". -/
theorem terminal_overwrite_behavior (st : ScanStore) (sid now : Nat) (e : LogEntry)
    (v : Int) (stt : Option String) (code : Option Int) (s : ScanSession)
    (h : getSession st sid = some s) (hcode : code ≠ some 0) :
    (getSession ((handleUpdate sid now st (UpdateMsg.log e)).1) sid).map ScanSession.status
      = some s.status ∧
    (getSession ((handleUpdate sid now st (UpdateMsg.progress v stt)).1) sid).map
        ScanSession.status = some (statusOrRunning stt) ∧
    (getSession ((handleWorkerClose sid now st code).1) sid).map ScanSession.status
      = some "failed" := by
  refine ⟨?_, ?_, ?_⟩
  · have hst : (handleUpdate sid now st (UpdateMsg.log e)).1 = addLogEntry st sid e := by
      simp [handleUpdate, execTrace, updateTrace, runTrace]
    rw [hst, getSession_addLogEntry_self st sid e s h]
    rfl
  · have hst : (handleUpdate sid now st (UpdateMsg.progress v stt)).1
        = (updateScanSession st sid (progressUpdates v stt)).1 := by
      simp [handleUpdate, execTrace, updateTrace, runTrace]
    rw [hst, getSession_update_self st sid (progressUpdates v stt) s h]
    simp [applySessionUpdates, progressUpdates]
  · have hst : (handleWorkerClose sid now st code).1
        = (updateScanSession st sid (failedUpdates now)).1 := by
      simp [handleWorkerClose, execTrace, closeTrace, hcode, runTrace]
    rw [hst, getSession_update_self st sid (failedUpdates now) s h]
    simp [applySessionUpdates, failedUpdates]

/-- Witness for C2's amended theorem on the completed record, with a
late Progress event carrying no status and a worker exit of code 1. -/
theorem terminal_overwrite_behavior_witness :
    (getSession ((handleUpdate 1 9 completedStore (UpdateMsg.log demoEntry)).1) 1).map
        ScanSession.status = some "completed" ∧
    (getSession ((handleUpdate 1 9 completedStore (UpdateMsg.progress 10 none)).1) 1).map
        ScanSession.status = some "running" ∧
    (getSession ((handleWorkerClose 1 9 completedStore (some 1)).1) 1).map
        ScanSession.status = some "failed" :=
  terminal_overwrite_behavior completedStore 1 9 demoEntry 10 none (some 1)
    completedSession (by decide) (by decide)

/-- Claim C3, counterexample: a worker exit with code 0 on a job that
never saw a terminal event does nothing at all — the job stays
"running" with no `completedAt`, and nothing is broadcast — because the
close handler only reacts to a non-zero exit code. -/
theorem silent_exit_cex :
    runningSession.status = "running" ∧
    handleWorkerClose 2 9 runningStore (some 0) = (runningStore, []) ∧
    (getSession runningStore 2).map ScanSession.completedAt = some none := by
  decide

/-- Claim C3 as amended: a worker exit with a non-zero (or null) exit
code transitions the job to "failed" and stamps `completedAt` —
unconditionally, whether or not the job was already terminal — while a
worker exit with code 0 leaves the store and the broadcast stream
untouched, so a worker that dies silently with exit code 0 before any
terminal event leaves its job non-terminal forever. -/
theorem worker_exit_behavior (st : ScanStore) (sid now : Nat) (s : ScanSession)
    (h : getSession st sid = some s) :
    (∀ code : Option Int, code ≠ some 0 →
      (getSession ((handleWorkerClose sid now st code).1) sid).map ScanSession.status
          = some "failed" ∧
      (getSession ((handleWorkerClose sid now st code).1) sid).map ScanSession.completedAt
          = some (some now)) ∧
    handleWorkerClose sid now st (some 0) = (st, []) := by
  constructor
  · intro code hcode
    have hst : (handleWorkerClose sid now st code).1
        = (updateScanSession st sid (failedUpdates now)).1 := by
      simp [handleWorkerClose, execTrace, closeTrace, hcode, runTrace]
    rw [hst, getSession_update_self st sid (failedUpdates now) s h]
    constructor
    · simp [applySessionUpdates, failedUpdates]
    · simp [applySessionUpdates, failedUpdates]
  · simp [handleWorkerClose, execTrace, closeTrace, runTrace]

/-- Witness for C3's amended theorem on the running record, at exit
codes 1 and 0. -/
theorem worker_exit_behavior_witness :
    ((getSession ((handleWorkerClose 2 9 runningStore (some 1)).1) 2).map ScanSession.status
        = some "failed" ∧
      (getSession ((handleWorkerClose 2 9 runningStore (some 1)).1) 2).map
          ScanSession.completedAt = some (some 9)) ∧
    handleWorkerClose 2 9 runningStore (some 0) = (runningStore, []) :=
  ⟨(worker_exit_behavior runningStore 2 9 runningSession (by decide)).1 (some 1) (by decide),
   (worker_exit_behavior runningStore 2 9 runningSession (by decide)).2⟩

/-- Claim C5, counterexample: progress moves 50, then the job completes,
then a late Progress event drops progress to 10 and even resets the
status to "running" — progress neither stays monotone while running
nor freezes at a terminal status. -/
theorem progress_unconstrained_cex :
    (getSession stepOneStore 1).map ScanSession.progress = some 50 ∧
    (getSession stepTwoStore 1).map ScanSession.status = some "completed" ∧
    (getSession stepThreeStore 1).map ScanSession.progress = some 10 ∧
    (getSession stepThreeStore 1).map ScanSession.status = some "running" := by
  decide

/-- Claim C5 as amended: every handled Progress event sets the job's
progress to exactly the value carried by the event and its status to
the event's status or "running" — with no 0 to 100 clamping, no
monotonicity enforcement and no freezing after a terminal status — so
progress is non-decreasing only as long as the worker emits
non-decreasing values. -/
theorem progress_set_verbatim (st : ScanStore) (sid now : Nat) (v : Int)
    (stt : Option String) (s : ScanSession) (h : getSession st sid = some s) :
    (getSession ((handleUpdate sid now st (UpdateMsg.progress v stt)).1) sid).map
        ScanSession.progress = some v ∧
    (getSession ((handleUpdate sid now st (UpdateMsg.progress v stt)).1) sid).map
        ScanSession.status = some (statusOrRunning stt) := by
  have hst : (handleUpdate sid now st (UpdateMsg.progress v stt)).1
      = (updateScanSession st sid (progressUpdates v stt)).1 := by
    simp [handleUpdate, execTrace, updateTrace, runTrace]
  rw [hst, getSession_update_self st sid (progressUpdates v stt) s h]
  constructor
  · simp [applySessionUpdates, progressUpdates]
  · simp [applySessionUpdates, progressUpdates]

/-- Witness for C5's amended theorem: a late Progress event of value 10
on the already completed record. -/
theorem progress_set_verbatim_witness :
    (getSession ((handleUpdate 1 9 completedStore (UpdateMsg.progress 10 none)).1) 1).map
        ScanSession.progress = some 10 ∧
    (getSession ((handleUpdate 1 9 completedStore (UpdateMsg.progress 10 none)).1) 1).map
        ScanSession.status = some "running" :=
  progress_set_verbatim completedStore 1 9 10 none completedSession (by decide)

/-! Facts about the connection-set model used by the broadcaster. -/

theorem setAdd_mem_self (l : List Conn) (c : Conn) : c ∈ setAdd l c := by
  by_cases h : c ∈ l <;> simp [setAdd, h]

theorem setAdd_of_mem {l : List Conn} {c : Conn} (h : c ∈ l) : setAdd l c = l := by
  simp [setAdd, h]

theorem setAdd_nodup {l : List Conn} (h : l.Nodup) (c : Conn) : (setAdd l c).Nodup := by
  by_cases hc : c ∈ l
  · simpa [setAdd, hc] using h
  · rw [setAdd, if_neg hc]
    exact List.nodup_append.mpr
      ⟨h, List.nodup_singleton c, by simpa [List.disjoint_singleton] using hc⟩

theorem subscribe_eq (r : Registry) (sid : Nat) (c : Conn) :
    subscribe r sid c = alistSet r sid (setAdd ((alistFind r sid).getD []) c) := by
  cases h : alistFind r sid <;> simp [subscribe, h]

theorem find_subscribe_self (r : Registry) (sid : Nat) (c : Conn) :
    alistFind (subscribe r sid c) sid = some (setAdd ((alistFind r sid).getD []) c) := by
  rw [subscribe_eq]
  exact alistFind_alistSet_self r sid _

theorem registryWf_conns (r : Registry) (sid : Nat) (hwf : RegistryWf r) :
    ((alistFind r sid).getD []).Nodup := by
  cases hf : alistFind r sid with
  | none => simp
  | some conns =>
      obtain ⟨p, hp, hpe⟩ := Option.map_eq_some'.mp hf
      have hmem := List.mem_of_find?_eq_some hp
      simpa [hpe] using hwf p hmem

/-- Claim C6 (subscribe idempotence): subscribing the same connection
to the same job twice leaves the registry exactly as subscribing once,
and a Publish for that job then delivers the event to the connection
exactly once (given the JS-Set well-formedness that no connection sits
twice in any session's set, and that the connection is open). -/
theorem subscribe_idempotent_delivery (r : Registry) (sid : Nat) (c : Conn)
    (hwf : RegistryWf r) (openC : Conn → Bool) (m : WsMsg) (hopen : openC c = true) :
    subscribe (subscribe r sid c) sid c = subscribe r sid c ∧
    List.count c (((broadcastUpdate openC (subscribe r sid c) sid m).2).map Prod.fst) = 1 ∧
    (∀ p ∈ (broadcastUpdate openC (subscribe r sid c) sid m).2, p.2 = m) := by
  have hfind := find_subscribe_self r sid c
  have hcL : c ∈ setAdd ((alistFind r sid).getD []) c := setAdd_mem_self _ _
  have hnodup : (setAdd ((alistFind r sid).getD []) c).Nodup :=
    setAdd_nodup (registryWf_conns r sid hwf) c
  have hlen : (setAdd ((alistFind r sid).getD []) c).length > 0 :=
    List.length_pos.mpr (List.ne_nil_of_mem hcL)
  have hsends : (broadcastUpdate openC (subscribe r sid c) sid m).2
      = ((setAdd ((alistFind r sid).getD []) c).filter openC).map (fun x => (x, m)) := by
    simp [broadcastUpdate, hfind, hlen]
  refine ⟨?_, ?_, ?_⟩
  · rw [subscribe_eq (subscribe r sid c) sid c, hfind]
    simp only [Option.getD_some]
    rw [setAdd_of_mem hcL, subscribe_eq r sid c, alistSet_alistSet_same,
      ← subscribe_eq r sid c]
  · rw [hsends, List.map_map]
    have hmap : ((setAdd ((alistFind r sid).getD []) c).filter openC).map
        (Prod.fst ∘ fun x : Conn => (x, m))
        = (setAdd ((alistFind r sid).getD []) c).filter openC := by
      rw [show (Prod.fst ∘ fun x : Conn => (x, m)) = id from rfl, List.map_id]
    rw [hmap]
    exact List.count_eq_one_of_mem (hnodup.filter openC)
      (List.mem_filter.mpr ⟨hcL, hopen⟩)
  · intro p hp
    rw [hsends] at hp
    obtain ⟨x, _, hx⟩ := List.mem_map.mp hp
    simp [← hx]

/-- Witness for C6: double-subscribe of connection 2 to job 1 on the
empty registry, with every connection open. -/
theorem subscribe_idempotent_delivery_witness :
    subscribe (subscribe [] 1 2) 1 2 = subscribe [] 1 2 ∧
    List.count 2
      (((broadcastUpdate (fun _ => true) (subscribe [] 1 2) 1 (WsMsg.subscribed 1)).2).map
        Prod.fst) = 1 ∧
    (∀ p ∈ (broadcastUpdate (fun _ => true) (subscribe [] 1 2) 1 (WsMsg.subscribed 1)).2,
      p.2 = WsMsg.subscribed 1) :=
  subscribe_idempotent_delivery [] 1 2 (by simp [RegistryWf]) (fun _ => true)
    (WsMsg.subscribed 1) rfl

/-- Claim C7 (publish delivery and dead-observer tolerance): a Publish
sends the event to exactly the open connections registered for the job
at the moment of the call (in particular, every open registered
connection receives it, unaffected by closed ones in the set); the
closed connections are silently removed from that job's set — the call
is total, never an error — and the sets of all other jobs are left
untouched. -/
theorem publish_delivery (openC : Conn → Bool) (r : Registry) (sid : Nat) (m : WsMsg)
    (conns : List Conn) (h : alistFind r sid = some conns) :
    (broadcastUpdate openC r sid m).2 = (conns.filter openC).map (fun c => (c, m)) ∧
    (∀ c ∈ conns, openC c = true → (c, m) ∈ (broadcastUpdate openC r sid m).2) ∧
    alistFind (broadcastUpdate openC r sid m).1 sid = some (conns.filter openC) ∧
    (∀ j, j ≠ sid → alistFind (broadcastUpdate openC r sid m).1 j = alistFind r j) := by
  by_cases hlen : conns.length > 0
  · have heq : broadcastUpdate openC r sid m
        = (alistSet r sid (conns.filter openC),
           (conns.filter openC).map (fun c => (c, m))) := by
      simp [broadcastUpdate, h, hlen]
    rw [heq]
    refine ⟨rfl, ?_, ?_, ?_⟩
    · intro c hc hoc
      exact List.mem_map.mpr ⟨c, List.mem_filter.mpr ⟨hc, hoc⟩, rfl⟩
    · exact alistFind_alistSet_self r sid _
    · intro j hj
      exact alistFind_alistSet_ne r sid _ j hj
  · have hnil : conns = [] := by
      cases conns with
      | nil => rfl
      | cons a l => simp at hlen
    subst hnil
    have heq : broadcastUpdate openC r sid m = (r, []) := by
      simp [broadcastUpdate, h]
    rw [heq]
    exact ⟨by simp, by simp, by simpa using h, fun j _ => rfl⟩

/-- Witness for C7: job 1 registered with open connection 2 and closed
connection 3 — connection 2 is served, connection 3 is dropped. -/
theorem publish_delivery_witness :
    (broadcastUpdate (fun c => c == 2) [(1, [2, 3])] 1 (WsMsg.status "failed")).2
        = ([2, 3].filter (fun c => c == 2)).map (fun c => (c, WsMsg.status "failed")) ∧
    (∀ c ∈ [2, 3], (fun c : Conn => c == 2) c = true →
      (c, WsMsg.status "failed")
        ∈ (broadcastUpdate (fun c => c == 2) [(1, [2, 3])] 1 (WsMsg.status "failed")).2) ∧
    alistFind (broadcastUpdate (fun c => c == 2) [(1, [2, 3])] 1 (WsMsg.status "failed")).1 1
        = some ([2, 3].filter (fun c => c == 2)) ∧
    (∀ j, j ≠ 1 →
      alistFind (broadcastUpdate (fun c => c == 2) [(1, [2, 3])] 1 (WsMsg.status "failed")).1 j
        = alistFind [(1, [2, 3])] j) :=
  publish_delivery (fun c => c == 2) [(1, [2, 3])] 1 (WsMsg.status "failed") [2, 3] (by decide)

/-- Claim C9 (frame property of partial update): for a session id held
by the store, `updateScanSession` stores exactly the object-spread
merge: every field present in the update takes the update's value,
every absent field (including id, url, logs, createdAt) keeps its
previous value, and the record of every other id is untouched. -/
theorem update_frame (st : ScanStore) (id : Nat) (u : SessionUpdates) (s : ScanSession)
    (h : getSession st id = some s) :
    getSession ((updateScanSession st id u).1) id = some (applySessionUpdates s u) ∧
    (u.id = none → (applySessionUpdates s u).id = s.id) ∧
    (∀ v, u.id = some v → (applySessionUpdates s u).id = v) ∧
    (u.url = none → (applySessionUpdates s u).url = s.url) ∧
    (∀ v, u.url = some v → (applySessionUpdates s u).url = v) ∧
    (u.status = none → (applySessionUpdates s u).status = s.status) ∧
    (∀ v, u.status = some v → (applySessionUpdates s u).status = v) ∧
    (u.progress = none → (applySessionUpdates s u).progress = s.progress) ∧
    (∀ v, u.progress = some v → (applySessionUpdates s u).progress = v) ∧
    (u.securityScore = none → (applySessionUpdates s u).securityScore = s.securityScore) ∧
    (∀ v, u.securityScore = some v → (applySessionUpdates s u).securityScore = v) ∧
    (u.loadTime = none → (applySessionUpdates s u).loadTime = s.loadTime) ∧
    (∀ v, u.loadTime = some v → (applySessionUpdates s u).loadTime = v) ∧
    (u.domElements = none → (applySessionUpdates s u).domElements = s.domElements) ∧
    (∀ v, u.domElements = some v → (applySessionUpdates s u).domElements = v) ∧
    (u.jsErrors = none → (applySessionUpdates s u).jsErrors = s.jsErrors) ∧
    (∀ v, u.jsErrors = some v → (applySessionUpdates s u).jsErrors = v) ∧
    (u.vulnerabilities = none → (applySessionUpdates s u).vulnerabilities = s.vulnerabilities) ∧
    (∀ v, u.vulnerabilities = some v → (applySessionUpdates s u).vulnerabilities = v) ∧
    (u.performanceMetrics = none →
      (applySessionUpdates s u).performanceMetrics = s.performanceMetrics) ∧
    (∀ v, u.performanceMetrics = some v → (applySessionUpdates s u).performanceMetrics = v) ∧
    (u.nlpInsights = none → (applySessionUpdates s u).nlpInsights = s.nlpInsights) ∧
    (∀ v, u.nlpInsights = some v → (applySessionUpdates s u).nlpInsights = v) ∧
    (u.logs = none → (applySessionUpdates s u).logs = s.logs) ∧
    (∀ v, u.logs = some v → (applySessionUpdates s u).logs = v) ∧
    (u.createdAt = none → (applySessionUpdates s u).createdAt = s.createdAt) ∧
    (∀ v, u.createdAt = some v → (applySessionUpdates s u).createdAt = v) ∧
    (u.completedAt = none → (applySessionUpdates s u).completedAt = s.completedAt) ∧
    (∀ v, u.completedAt = some v → (applySessionUpdates s u).completedAt = v) ∧
    (∀ j, j ≠ id → getSession ((updateScanSession st id u).1) j = getSession st j) := by
  refine ⟨getSession_update_self st id u s h,
    ?_, ?_, ?_, ?_, ?_, ?_, ?_, ?_, ?_, ?_, ?_, ?_, ?_, ?_, ?_, ?_, ?_, ?_,
    ?_, ?_, ?_, ?_, ?_, ?_, ?_, ?_, ?_, ?_, ?_⟩
  all_goals
    first
      | (intro hf
         simp [applySessionUpdates, hf])
      | (intro v hf
         simp [applySessionUpdates, hf])
      | (intro j hj
         exact getSession_update_ne st id u j hj)

/-- Witness for C9: a status-and-progress update on the fresh store. -/
theorem update_frame_witness :
    getSession ((updateScanSession freshStore 1 demoUpdates).1) 1
      = some (applySessionUpdates (initSession 1 "https://example.com" 3) demoUpdates) :=
  (update_frame freshStore 1 demoUpdates (initSession 1 "https://example.com" 3)
    (by decide)).1

end WebIntelAudit
